import Mathlib

/-!
Verification of the Adaptive Matching Core of the my-money-medic repository.

The definitions below are a shallow embedding of
`backend/app/services/matching_algorithm.py` and
`backend/app/services/adaptive_quiz_service.py`.  Python floats are
modelled as exact rationals, Python dicts as association lists, and the
dynamically-typed answer payloads as the inductive type `PyVal`.
Fallible code (Python code that can raise) returns `Option`.
-/

namespace MyMoneyMedic

/-- A Python value as it appears in quiz answer payloads: strings, numbers,
booleans, lists, dicts (string keys) and `None`. -/
inductive PyVal where
  | vstr (s : String)
  | vnum (q : ℚ)
  | vbool (b : Bool)
  | vlist (xs : List PyVal)
  | vdict (kvs : List (String × PyVal))
  | vnone

/-- Python truthiness (`bool(v)`): empty strings/lists/dicts, zero, `False`
and `None` are falsy. -/
def PyVal.truthy : PyVal → Bool
  | .vstr s => !s.isEmpty
  | .vnum q => decide (q ≠ 0)
  | .vbool b => b
  | .vlist xs => !xs.isEmpty
  | .vdict kvs => !kvs.isEmpty
  | .vnone => false

mutual

/-- Python `repr` of a value.  Numbers are printed through `ℚ`'s printer,
which differs textually from CPython's float formatting; none of the
keyword tests in the services can match inside a numeric literal, so the
difference is immaterial to the verified properties. -/
def PyVal.pyRepr : PyVal → String
  | .vstr s => "\x27" ++ s ++ "\x27"
  | .vnum q => toString q.num ++ (if q.den = 1 then "" else "/" ++ toString q.den)
  | .vbool b => if b then "True" else "False"
  | .vnone => "None"
  | .vlist xs => "[" ++ pyReprList xs ++ "]"
  | .vdict kvs => "\x7b" ++ pyReprDict kvs ++ "\x7d"

def pyReprList : List PyVal → String
  | [] => ""
  | [x] => x.pyRepr
  | x :: xs => x.pyRepr ++ ", " ++ pyReprList xs

def pyReprDict : List (String × PyVal) → String
  | [] => ""
  | [kv] => "\x27" ++ kv.1 ++ "\x27: " ++ kv.2.pyRepr
  | kv :: xs => "\x27" ++ kv.1 ++ "\x27: " ++ kv.2.pyRepr ++ ", " ++ pyReprDict xs

end

/-- Python `str(v)`: the string itself for strings, `repr` otherwise. -/
def PyVal.pyStr : PyVal → String
  | .vstr s => s
  | v => v.pyRepr

/-- Python iteration `for x in v`: lists yield their elements, dicts their
keys, strings their characters; other values raise `TypeError` (`none`). -/
def PyVal.pyIter : PyVal → Option (List PyVal)
  | .vlist xs => some xs
  | .vdict kvs => some (kvs.map (fun kv => .vstr kv.1))
  | .vstr s => some (s.toList.map (fun c => .vstr (String.mk [c])))
  | _ => none

/-- `pat` occurs as a contiguous substring of `hay` (Python `pat in hay`
for strings), on character lists. -/
def subSearch (pat : List Char) : List Char → Bool
  | [] => pat.isEmpty
  | c :: cs => pat.isPrefixOf (c :: cs) || subSearch pat cs

/-- Python `pat in hay` for strings. -/
def strContains (hay pat : String) : Bool :=
  subSearch pat.toList hay.toList

/-- Python `str.lower()`, written on the character list so that it
evaluates inside the kernel (ASCII inputs throughout this code base). -/
def pyLower (s : String) : String :=
  String.mk (s.data.map Char.toLower)

/-- `any(word in hay for word in kws)` - some keyword of `kws` occurs in
`hay`. -/
def containsAny (hay : String) (kws : List String) : Bool :=
  kws.any (fun w => strContains hay w)

/-- First-match association-list lookup (Python `dict.get`). -/
def dictGet {α : Type} (kvs : List (String × α)) (k : String) : Option α :=
  (kvs.find? (fun kv => kv.1 == k)).map (·.2)

/-- Python dict assignment `d[k] = v`: replace the existing binding in
place, or append a new one (insertion order preserved). -/
def dictSet {α : Type} (kvs : List (String × α)) (k : String) (v : α) :
    List (String × α) :=
  if kvs.any (fun kv => kv.1 == k) then
    kvs.map (fun kv => if kv.1 == k then (k, v) else kv)
  else
    kvs ++ [(k, v)]

/-!
## Data model for the matching engine
(`backend/app/services/matching_algorithm.py`, `database/models/{user,broker}.py`)
-/

/-- `UserType` enum from `database/models/user.py`. -/
inductive UserType where
  | client
  | broker
  | admin
  deriving DecidableEq, BEq

/-- The `User` columns read by the matching algorithm. -/
structure UserRec where
  id : String
  user_type : UserType
  email : String
  deriving DecidableEq

/-- `ExperienceLevel` enum from `database/models/broker.py`. -/
inductive ExperienceLevel where
  | junior
  | intermediate
  | senior
  | expert
  deriving DecidableEq, BEq

/-- The `Broker` columns read by the matching algorithm.  `average_rating`
and `success_rate` are nullable `Float` columns, hence `Option ℚ`;
`is_deleted` is the nullable soft-delete marker (`none` = not deleted);
`specializations` holds the `name`s of the broker's `Specialization` rows. -/
structure Broker where
  id : String
  user_id : String
  experience_level : ExperienceLevel
  average_rating : Option ℚ
  success_rate : Option ℚ
  is_verified : Bool
  is_active : Bool
  is_deleted : Option String
  specializations : List String
  deriving DecidableEq

/-- One `UserQuizResponse` row joined with its `QuizQuestion`
(fields accessed by `_get_user_responses`). -/
structure RespRow where
  user_id : String
  question_text : String
  response : PyVal
  question_type : String
  weight : ℚ

/-- The per-question entry stored by `_get_user_responses` in its
`response_dict`. -/
structure RespEntry where
  response : PyVal
  question_type : String
  weight : ℚ

/-- The persistence collaborator: the tables read by
`BrokerMatchingAlgorithm.calculate_matches`. -/
structure DB where
  users : List UserRec
  quiz_responses : List RespRow
  brokers : List Broker

/-- `BrokerMatchingAlgorithm._get_user_responses`: filter this user's rows,
JSON-decode string payloads (`json.loads` is the external `decode`; a parse
failure keeps the raw string, as in the `except: pass`), and key the entries
by question text, later rows overriding earlier ones (dict assignment). -/
def getUserResponses (decode : String → Option PyVal) (db : DB)
    (user_id : String) : List (String × RespEntry) :=
  (db.quiz_responses.filter (fun r => r.user_id == user_id)).foldl
    (fun d r =>
      let response_data :=
        match r.response with
        | .vstr s => (decode s).getD (.vstr s)
        | v => v
      dictSet d r.question_text ⟨response_data, r.question_type, r.weight⟩) []

/-- The list/dict answer normalisation repeated in the single-answer
scorers: a list is replaced by its first element (`None` when empty), a
dict by its `"answer"` entry (default `str(dict)`). -/
def extractScalar (v : PyVal) : PyVal :=
  match v with
  | .vlist [] => .vnone
  | .vlist (x :: _) => x
  | .vdict kvs => (dictGet kvs "answer").getD (.vstr (PyVal.vdict kvs).pyStr)
  | x => x

/-- `goal_to_specialization` table of `_score_investment_goals`. -/
def goal_to_specialization : List (String × List String) :=
  [("retirement", ["retirement_planning", "financial_planning"]),
   ("wealth_growth", ["investment_management", "wealth_management"]),
   ("income", ["income_strategies", "dividend_investing"]),
   ("education", ["education_planning", "529_plans"]),
   ("home_purchase", ["real_estate_planning", "savings_strategies"])]

/-- `BrokerMatchingAlgorithm._score_investment_goals`. -/
def scoreInvestmentGoals (broker : Broker)
    (user_responses : List (String × RespEntry)) : ℚ :=
  match dictGet user_responses "What is your primary investment goal?" with
  | none => 1/2
  | some goal_response =>
    let user_goal := goal_response.response
    if !user_goal.truthy then 1/2 else
    let user_goal := extractScalar user_goal
    if !user_goal.truthy then 1/2 else
    let broker_specializations := broker.specializations.map pyLower
    match dictGet goal_to_specialization (pyLower user_goal.pyStr) with
    | none => 7/10
    | some required_specs =>
      let matchCount := required_specs.countP
        (fun spec => broker_specializations.any (fun bs => strContains bs spec))
      min ((matchCount : ℚ) / required_specs.length) 1

/-- `RISK_COMPATIBILITY` class table. -/
def RISK_COMPATIBILITY : List (String × List String) :=
  [("conservative", ["conservative", "moderate_conservative"]),
   ("moderate_conservative", ["conservative", "moderate_conservative", "moderate"]),
   ("moderate", ["moderate_conservative", "moderate", "moderate_aggressive"]),
   ("moderate_aggressive", ["moderate", "moderate_aggressive", "aggressive"]),
   ("aggressive", ["moderate_aggressive", "aggressive"])]

/-- `broker_risk_styles` table of `_score_risk_tolerance` (total on the
enum, so the Python `.get` default `["moderate"]` is unreachable). -/
def brokerRiskStyles : ExperienceLevel → List String
  | .junior => ["conservative", "moderate_conservative"]
  | .intermediate => ["moderate_conservative", "moderate"]
  | .senior => ["moderate", "moderate_aggressive"]
  | .expert => ["moderate_aggressive", "aggressive"]

/-- `BrokerMatchingAlgorithm._score_risk_tolerance`. -/
def scoreRiskTolerance (broker : Broker)
    (user_responses : List (String × RespEntry)) : ℚ :=
  match dictGet user_responses "What is your risk tolerance level?" with
  | none => 1/2
  | some risk_response =>
    let user_risk := risk_response.response
    if !user_risk.truthy then 1/2 else
    let user_risk := extractScalar user_risk
    if !user_risk.truthy then 1/2 else
    let compatible_risks :=
      (dictGet RISK_COMPATIBILITY (pyLower user_risk.pyStr)).getD
        [(pyLower user_risk.pyStr)]
    let broker_styles := brokerRiskStyles broker.experience_level
    if broker_styles.any (fun style => compatible_risks.contains style) then 1
    else 3/10

/-- `EXPERIENCE_COMPATIBILITY` class table. -/
def EXPERIENCE_COMPATIBILITY : List (String × List String) :=
  [("none", ["junior", "intermediate"]),
   ("beginner", ["intermediate", "senior"]),
   ("intermediate", ["intermediate", "senior", "expert"]),
   ("advanced", ["senior", "expert"]),
   ("expert", ["expert"])]

/-- `broker_exp_map` of `_score_experience_match` (total on the enum). -/
def brokerExpMap : ExperienceLevel → String
  | .junior => "junior"
  | .intermediate => "intermediate"
  | .senior => "senior"
  | .expert => "expert"

/-- `BrokerMatchingAlgorithm._score_experience_match`. -/
def scoreExperienceMatch (broker : Broker)
    (user_responses : List (String × RespEntry)) : ℚ :=
  match dictGet user_responses
      "How would you describe your investment experience?" with
  | none => 1/2
  | some exp_response =>
    let user_experience := exp_response.response
    if !user_experience.truthy then 1/2 else
    let user_experience := extractScalar user_experience
    if !user_experience.truthy then 1/2 else
    let compatible_levels :=
      (dictGet EXPERIENCE_COMPATIBILITY (pyLower user_experience.pyStr)).getD []
    let broker_exp := brokerExpMap broker.experience_level
    if compatible_levels.contains broker_exp then
      if (pyLower user_experience.pyStr) == "none" && broker_exp == "junior" then 1
      else if (pyLower user_experience.pyStr) == "expert" && broker_exp == "expert"
        then 1
      else 4/5
    else 3/10

/-- `service_to_specialization` table of `_score_service_alignment`. -/
def service_to_specialization : List (String × String) :=
  [("financial_planning", "financial_planning"),
   ("tax_planning", "tax_strategies"),
   ("estate_planning", "estate_planning"),
   ("retirement_planning", "retirement_planning"),
   ("education_planning", "education_planning"),
   ("insurance", "insurance_planning"),
   ("investment_management", "investment_management"),
   ("budgeting", "budgeting")]

/-- Multi-select normalisation shared by the service/sector/certification
scorers: a string is JSON-decoded (wrapped on parse failure), a list is
kept, anything else is wrapped as `[str(v)]`. -/
def normalizeToValue (decode : String → Option PyVal) (v : PyVal) : PyVal :=
  match v with
  | .vstr s => (decode s).getD (.vlist [.vstr s])
  | .vlist xs => .vlist xs
  | v => .vlist [.vstr v.pyStr]

/-- `BrokerMatchingAlgorithm._score_service_alignment`; `none` models the
`TypeError` raised when a JSON-decoded answer is not iterable. -/
def scoreServiceAlignment (decode : String → Option PyVal) (broker : Broker)
    (user_responses : List (String × RespEntry)) : Option ℚ :=
  match dictGet user_responses "Which services are most important to you?" with
  | none => some (1/2)
  | some service_response =>
    let user_services := service_response.response
    if !user_services.truthy then some (1/2) else
    let user_services := normalizeToValue decode user_services
    match user_services.pyIter with
    | none => none
    | some items =>
      let broker_specializations := broker.specializations.map pyLower
      let matchCount := items.countP (fun service =>
        let service_str := service.pyStr
        let spec_needed :=
          (dictGet service_to_specialization service_str).getD service_str
        broker_specializations.any (fun bs => strContains bs spec_needed))
      if items.isEmpty then some (1/2)
      else some ((matchCount : ℚ) / items.length)

/-- `amount_requirements` table of `_score_investment_amount`. -/
def amount_requirements : List (String × ℚ) :=
  [("less_10k", 0), ("10k_50k", 10000), ("50k_100k", 50000),
   ("100k_500k", 100000), ("500k_plus", 500000)]

/-- `broker_minimums` table of `_score_investment_amount` (total on the
enum). -/
def brokerMinimums : ExperienceLevel → ℚ
  | .junior => 0
  | .intermediate => 10000
  | .senior => 50000
  | .expert => 100000

/-- `BrokerMatchingAlgorithm._score_investment_amount`. -/
def scoreInvestmentAmount (broker : Broker)
    (user_responses : List (String × RespEntry)) : ℚ :=
  match dictGet user_responses "What is your approximate investment amount?" with
  | none => 1/2
  | some amount_response =>
    let user_amount := amount_response.response
    if !user_amount.truthy then 1/2 else
    let user_amount := extractScalar user_amount
    if !user_amount.truthy then 1/2 else
    let user_min := (dictGet amount_requirements (pyLower user_amount.pyStr)).getD 0
    let broker_min := brokerMinimums broker.experience_level
    if broker_min ≤ user_min then 1
    else if broker_min * (1/2) ≤ user_min then 7/10
    else 2/5

/-- `BrokerMatchingAlgorithm._score_sector_interests`. -/
def scoreSectorInterests (decode : String → Option PyVal) (broker : Broker)
    (user_responses : List (String × RespEntry)) : Option ℚ :=
  match dictGet user_responses
      "Which sectors are you most interested in investing?" with
  | none => some (1/2)
  | some sector_response =>
    let user_sectors := sector_response.response
    if !user_sectors.truthy then some (1/2) else
    let user_sectors := normalizeToValue decode user_sectors
    match user_sectors.pyIter with
    | none => none
    | some items =>
      let broker_specializations := broker.specializations.map pyLower
      let matchCount := items.countP (fun sector =>
        broker_specializations.any (fun spec =>
          strContains spec (pyLower sector.pyStr)))
      if items.isEmpty then some (1/2)
      else some (min ((matchCount : ℚ) / items.length) 1)

/-- `BrokerMatchingAlgorithm._score_communication_style`. -/
def scoreCommunicationStyle (_broker : Broker)
    (user_responses : List (String × RespEntry)) : ℚ :=
  match dictGet user_responses
      "How would you prefer to communicate with your broker?" with
  | none => 4/5
  | some _ => 9/10

/-- `BrokerMatchingAlgorithm._score_certification_match`. -/
def scoreCertificationMatch (decode : String → Option PyVal) (_broker : Broker)
    (user_responses : List (String × RespEntry)) : Option ℚ :=
  match dictGet user_responses
      "Do you have any specific broker certification preferences?" with
  | none => some (4/5)
  | some cert_response =>
    let user_certs := cert_response.response
    if !user_certs.truthy then some (4/5) else
    let user_certs := normalizeToValue decode user_certs
    match user_certs.pyIter with
    | none => none
    | some items =>
      if (items.map (fun cert => pyLower cert.pyStr)).contains "no_preference"
        then some 1
      else some (7/10)

/-- `BrokerMatchingAlgorithm._score_broker_performance`.  The Python guard
`if broker.average_rating` is falsy both for `NULL` and for `0.0`, so a
zero rating or success rate also falls back to `0.5`. -/
def scoreBrokerPerformance (broker : Broker) : ℚ :=
  let rating_score :=
    match broker.average_rating with
    | some r => if r = 0 then 1/2 else r / 5
    | none => 1/2
  let success_score :=
    match broker.success_rate with
    | some s => if s = 0 then 1/2 else s
    | none => 1/2
  rating_score * (7/10) + success_score * (3/10)

/-- `BrokerMatchingAlgorithm._calculate_broker_score`: the nine criterion
scores combined with the `WEIGHTS` table (0.20/0.15/0.15/0.15/0.10/0.10/
0.05/0.05/0.05) and capped at 1.0. -/
def calculateBrokerScore (decode : String → Option PyVal) (broker : Broker)
    (user_responses : List (String × RespEntry)) : Option ℚ := do
  let s_goals := scoreInvestmentGoals broker user_responses
  let s_risk := scoreRiskTolerance broker user_responses
  let s_exp := scoreExperienceMatch broker user_responses
  let s_service ← scoreServiceAlignment decode broker user_responses
  let s_amount := scoreInvestmentAmount broker user_responses
  let s_sector ← scoreSectorInterests decode broker user_responses
  let s_comm := scoreCommunicationStyle broker user_responses
  let s_cert ← scoreCertificationMatch decode broker user_responses
  let s_perf := scoreBrokerPerformance broker
  let total_score :=
    s_goals * (20/100) + s_risk * (15/100) + s_exp * (15/100) +
    s_service * (15/100) + s_amount * (10/100) + s_sector * (10/100) +
    s_comm * (5/100) + s_cert * (5/100) + s_perf * (5/100)
  pure (min total_score 1)

/-- The broker query of `calculate_matches`: active, verified, not
soft-deleted, joined user exists and its email contains neither `test`
nor `demo`. -/
def eligibleBrokers (db : DB) : List Broker :=
  db.brokers.filter (fun b =>
    b.is_active && b.is_verified && b.is_deleted.isNone &&
    (match db.users.find? (fun u => u.id == b.user_id) with
     | some u => !(strContains u.email "test") && !(strContains u.email "demo")
     | none => false))

/-- The `for broker in brokers` scoring loop of `calculate_matches`:
append `(broker, score)` pairs in order; a scorer exception anywhere
aborts the call (`none`). -/
def scoreLoop (decode : String → Option PyVal)
    (user_responses : List (String × RespEntry)) :
    List Broker → Option (List (Broker × ℚ))
  | [] => some []
  | broker :: rest =>
    match calculateBrokerScore decode broker user_responses with
    | none => none
    | some score =>
      (scoreLoop decode user_responses rest).map
        (fun tail => (broker, score) :: tail)

/-- The scored eligible brokers of `calculate_matches`. -/
def scoredBrokers (decode : String → Option PyVal) (db : DB)
    (user_responses : List (String × RespEntry)) : Option (List (Broker × ℚ)) :=
  scoreLoop decode user_responses (eligibleBrokers db)

/-- `broker_scores.sort(key=lambda x: x[1], reverse=True)`: Python's sort
is stable, so this is the stable descending sort by score. -/
def pySortByScoreDesc (broker_scores : List (Broker × ℚ)) :
    List (Broker × ℚ) :=
  broker_scores.mergeSort (fun a b => decide (b.2 ≤ a.2))

/-- `BrokerMatchingAlgorithm.calculate_matches`. -/
def calculate_matches (decode : String → Option PyVal) (db : DB)
    (user_id : String) (top_n : ℕ) : Option (List (Broker × ℚ)) :=
  match db.users.find?
      (fun u => u.id == user_id && u.user_type == UserType.client) with
  | none => some []
  | some _ =>
    let user_responses := getUserResponses decode db user_id
    if user_responses.isEmpty then some []
    else
      (scoredBrokers decode db user_responses).map
        (fun broker_scores => (pySortByScoreDesc broker_scores).take top_n)

/-!
## Adaptive quiz service
(`backend/app/services/adaptive_quiz_service.py`)
-/

/-- One entry of the question plan (`type` is spelt `qtype`: `type` is a
Lean keyword). -/
structure PlanEntry where
  order : ℕ
  topic : String
  category : String
  qtype : String
  deriving DecidableEq

/-- `AdaptiveQuizService._create_question_plan`: the fixed 10-slot plan. -/
def createQuestionPlan : List PlanEntry :=
  [⟨1, "Investment goals and timeline", "FINANCIAL_GOALS", "single_choice"⟩,
   ⟨2, "Risk tolerance and emotional response", "RISK_TOLERANCE", "scale"⟩,
   ⟨3, "Investment experience and knowledge", "EXPERIENCE", "multiple_choice"⟩,
   ⟨4, "Decision-making psychology and style", "PSYCHOLOGY", "single_choice"⟩,
   ⟨5, "Social influence and peer behavior", "PSYCHOLOGY", "multiple_choice"⟩,
   ⟨6, "Communication preferences and learning style", "PREFERENCES",
     "single_choice"⟩,
   ⟨7, "Authority and expertise preferences", "PSYCHOLOGY", "scale"⟩,
   ⟨8, "Financial anxiety and loss aversion", "PSYCHOLOGY", "single_choice"⟩,
   ⟨9, "Past financial experiences and lessons", "EXPERIENCE", "text"⟩,
   ⟨10, "Future financial vision and aspirations", "FINANCIAL_GOALS", "text"⟩]

/-- The response dict appended by `submit_response_and_get_next`
(`question_number`, the raw `response["answer"]`, the served question's
text; the wall-clock `timestamp` is out of scope).  The stored dict never
carries a `question_type` key, which `_get_selection_question_type` probes
with `.get`; the field records that absent key. -/
structure ResponseRecord where
  question_number : ℕ
  response : PyVal
  question_text : String
  question_type : Option String

/-- The in-memory quiz session dict created by `start_adaptive_quiz`
(identity and timestamp fields are out of scope; `insights` keeps only the
collaborator-produced payloads, which the state machine never inspects). -/
structure QuizSession where
  user_id : String
  current_question : ℕ
  responses : List ResponseRecord
  insights : List String
  focus_areas : List String
  question_plan : List PlanEntry
  text_questions_used : ℕ
  selection_questions_used : ℕ
  current_question_text : String

/-- `self.total_questions`. -/
def total_questions : ℕ := 10

/-- `self.text_questions_limit`. -/
def text_questions_limit : ℕ := 2

/-- `self.selection_questions_limit`. -/
def selection_questions_limit : ℕ := 8

/-- `AdaptiveQuizService._get_selection_question_type`: quota order
`single_choice` (4), `multiple_choice` (3), `scale` (2), defaulting to
`single_choice`. -/
def getSelectionQuestionType (s : QuizSession) : String :=
  let question_types_used := s.responses.filterMap (fun r => r.question_type)
  if question_types_used.count "single_choice" < 4 then "single_choice"
  else if question_types_used.count "multiple_choice" < 3 then "multiple_choice"
  else if question_types_used.count "scale" < 2 then "scale"
  else "single_choice"

/-- `AdaptiveQuizService._choose_question_type_controlled`. -/
def chooseQuestionTypeControlled (s : QuizSession) : String :=
  let text_used := s.text_questions_used
  let selection_used := s.selection_questions_used
  let current_question := s.current_question
  if 9 ≤ current_question && text_used < text_questions_limit then "text"
  else if text_questions_limit ≤ text_used then getSelectionQuestionType s
  else if selection_questions_limit ≤ selection_used then "text"
  else if current_question ≤ 8 then getSelectionQuestionType s
  else getSelectionQuestionType s

/-- The question-format selection in
`_generate_psychology_enhanced_question`: the planned slot's format while
the plan covers the current slot, otherwise the controlled fallback. -/
def plannedQuestionType (s : QuizSession) : String :=
  if s.current_question ≤ s.question_plan.length then
    (s.question_plan.getD (s.current_question - 1) ⟨0, "", "", ""⟩).qtype
  else chooseQuestionTypeControlled s

/-- The session mutations performed by
`_generate_psychology_enhanced_question` and its caller: the format-usage
counters are bumped for the chosen format, and the served question's text
(produced by the external generation collaborator, here a parameter) is
stored for anti-repetition. -/
def generateQuestionEffects (s : QuizSession) (question_text : String) :
    QuizSession :=
  if plannedQuestionType s == "text" then
    { s with text_questions_used := s.text_questions_used + 1,
             current_question_text := question_text }
  else
    { s with selection_questions_used := s.selection_questions_used + 1,
             current_question_text := question_text }

/-- `AdaptiveQuizService._determine_initial_focus_areas`. -/
def determineInitialFocusAreas (user_type : UserType) : List String :=
  let focus_areas := ["investment_goals", "risk_assessment", "psychology_analysis"]
  if user_type = UserType.client then
    focus_areas ++ ["broker_preferences", "service_needs"]
  else focus_areas

/-- `AdaptiveQuizService.start_adaptive_quiz`: the fresh session dict,
with the first question generated and its text stored. -/
def startSession (user_id : String) (user_type : UserType)
    (first_question_text : String) : QuizSession :=
  generateQuestionEffects
    { user_id := user_id
      current_question := 1
      responses := []
      insights := []
      focus_areas := determineInitialFocusAreas user_type
      question_plan := createQuestionPlan
      text_questions_used := 0
      selection_questions_used := 0
      current_question_text := "" } first_question_text

/-- `AdaptiveQuizService._update_focus_areas`.  `answer` is
`response.get("answer", "")`; non-string answers are ignored, and the
three keyword checks form an `if`/`elif` chain. -/
def updateFocusAreas (current_areas : List String) (answer : PyVal) :
    List String :=
  match answer with
  | .vstr str =>
    if strContains (pyLower str) "retirement" then
      if !current_areas.contains "retirement_planning" then
        current_areas ++ ["retirement_planning"]
      else current_areas
    else if strContains (pyLower str) "tax" then
      if !current_areas.contains "tax_optimization" then
        current_areas ++ ["tax_optimization"]
      else current_areas
    else if strContains (pyLower str) "estate" then
      if !current_areas.contains "estate_planning" then
        current_areas ++ ["estate_planning"]
      else current_areas
    else current_areas
  | _ => current_areas

/-- Result of `submit_response_and_get_next`: either the next question
(with the updated session and `current/10*100` progress) or the completion
payload.  The completion payload's insights/matches/recommendations come
from the collaborators (§4.3/§4.4) and are not inspected here; the payload
carries the final session. -/
inductive SubmitResult where
  | next (session : QuizSession) (completion_percentage : ℚ)
  | completed (session : QuizSession)

/-- Session carried by a `SubmitResult`. -/
def SubmitResult.session : SubmitResult → QuizSession
  | .next s _ => s
  | .completed s => s

/-- Steps 1-3 of `submit_response_and_get_next`: append the response
record for the current slot (carrying the currently served question's
text), extend the insights with whatever the analyzer collaborators
produced, and recompute the focus areas. -/
def appendResponse (s : QuizSession) (answer : PyVal)
    (new_insights : List String) : QuizSession :=
  { s with
    responses := s.responses ++
      [(⟨s.current_question, answer, s.current_question_text, none⟩ :
        ResponseRecord)],
    insights := s.insights ++ new_insights,
    focus_areas := updateFocusAreas s.focus_areas answer }

/-- `AdaptiveQuizService.submit_response_and_get_next`.  `answer` is the
submitted `response["answer"]`; `new_insights` is whatever the analyzer
collaborators produced (swallowed exceptions yield `[]`);
`next_question_text` is the externally generated question text.  The
completion check reads `current_question` before it is incremented. -/
def submitResponse (s : QuizSession) (answer : PyVal)
    (new_insights : List String) (next_question_text : String) : SubmitResult :=
  if total_questions ≤ s.current_question then
    .completed (appendResponse s answer new_insights)
  else
    .next
      (generateQuestionEffects
        { appendResponse s answer new_insights with
          current_question := s.current_question + 1 } next_question_text)
      (((s.current_question + 1 : ℕ) : ℚ) / (total_questions : ℚ) * 100)

/-- Sessions produced by the state machine's lifecycle: created by
`start_adaptive_quiz` and advanced by non-completing
`submit_response_and_get_next` calls. -/
inductive Reachable : QuizSession → Prop where
  | start (user_id : String) (user_type : UserType) (fq : String) :
      Reachable (startSession user_id user_type fq)
  | step {s s' : QuizSession} {answer : PyVal} {ins : List String}
      {nq : String} {p : ℚ} :
      Reachable s → submitResponse s answer ins nq = .next s' p → Reachable s'

/-!
### Response pattern analyzer (`_analyze_response_patterns`)
-/

/-- The `patterns` dict. -/
structure ResponsePatterns where
  decision_style : String
  risk_level : String
  communication : String
  deriving DecidableEq

def decisionSocialKws : List String := ["friends", "family", "others", "social"]

def decisionAnalyticalKws : List String := ["research", "analyze", "data", "study"]

def decisionIntuitiveKws : List String := ["gut", "feeling", "intuition", "instinct"]

def riskConservativeKws : List String :=
  ["safe", "secure", "conservative", "protect", "worried"]

def riskAggressiveKws : List String :=
  ["aggressive", "growth", "risk", "opportunity", "high"]

def commVisualKws : List String := ["charts", "graphs", "visual", "reports"]

def commPersonalKws : List String :=
  ["meeting", "discussion", "talk", "conversation"]

/-- The per-response answer-text extraction of
`_analyze_response_patterns`. -/
def patternAnswerText (response : PyVal) : String :=
  match response with
  | .vstr s => pyLower s
  | .vdict kvs =>
    let resp_data := (dictGet kvs "response").getD (.vdict [])
    match resp_data with
    | .vstr s => pyLower s
    | .vdict akvs => pyLower ((dictGet akvs "answer").getD (.vstr "")).pyStr
    | v => pyLower v.pyStr
  | v => pyLower v.pyStr

/-- The decision-style `if`/`elif` chain of `_analyze_response_patterns`. -/
def updateDecisionStyle (answer : String) (patterns : ResponsePatterns) :
    ResponsePatterns :=
  if containsAny answer decisionSocialKws then
    { patterns with decision_style := "social" }
  else if containsAny answer decisionAnalyticalKws then
    { patterns with decision_style := "analytical" }
  else if containsAny answer decisionIntuitiveKws then
    { patterns with decision_style := "intuitive" }
  else patterns

/-- The risk-level `if`/`elif` chain of `_analyze_response_patterns`. -/
def updateRiskLevel (answer : String) (patterns : ResponsePatterns) :
    ResponsePatterns :=
  if containsAny answer riskConservativeKws then
    { patterns with risk_level := "conservative" }
  else if containsAny answer riskAggressiveKws then
    { patterns with risk_level := "aggressive" }
  else patterns

/-- The communication `if`/`elif` chain of `_analyze_response_patterns`. -/
def updateCommunication (answer : String) (patterns : ResponsePatterns) :
    ResponsePatterns :=
  if containsAny answer commVisualKws then
    { patterns with communication := "visual" }
  else if containsAny answer commPersonalKws then
    { patterns with communication := "personal" }
  else patterns

/-- The per-response body of `_analyze_response_patterns`'s loop: three
independent `if`/`elif` chains run in order, each overwriting its category
when a keyword family matches (all operations here are total, so the
source's per-response `except: continue` never fires). -/
def updatePatterns (patterns : ResponsePatterns) (response : PyVal) :
    ResponsePatterns :=
  updateCommunication (patternAnswerText response)
    (updateRiskLevel (patternAnswerText response)
      (updateDecisionStyle (patternAnswerText response) patterns))

/-- `AdaptiveQuizService._analyze_response_patterns`. -/
def analyzeResponsePatterns (responses : List PyVal) : ResponsePatterns :=
  responses.foldl updatePatterns ⟨"balanced", "moderate", "mixed"⟩

/-!
### Investment profile generator (`_generate_investment_profile`)
-/

/-- The `profile` dict. -/
structure InvestmentProfile where
  investment_horizon : String
  risk_tolerance : String
  preferred_focus : String
  deriving DecidableEq

def horizonLongKws : List String := ["retirement", "long", "future", "years"]

def horizonShortKws : List String := ["short", "soon", "immediate", "quick"]

def profileConservativeKws : List String :=
  ["safe", "conservative", "stable", "secure"]

def profileAggressiveKws : List String := ["aggressive", "risky", "growth", "high"]

def focusIncomeKws : List String := ["income", "dividends", "steady"]

def focusGrowthKws : List String := ["growth", "capital", "appreciate"]

def focusResearchKws : List String := ["research", "analysis", "study"]

/-- The `response_texts` extraction loop of `_generate_investment_profile`:
each element must be a dict, and a truthy `"response"` value must itself be
a dict (otherwise `.get` raises `AttributeError`, modelled by `none`); the
truthy `"answer"` values are stringified and lower-cased. -/
def collectProfileTexts : List PyVal → Option (List String)
  | [] => some []
  | response :: rest =>
    match response with
    | .vdict kvs =>
      let rv := (dictGet kvs "response").getD .vnone
      if rv.truthy then
        match rv with
        | .vdict akvs =>
          let answer := (dictGet akvs "answer").getD (.vstr "")
          if answer.truthy then
            (collectProfileTexts rest).map
              (fun ts => pyLower answer.pyStr :: ts)
          else collectProfileTexts rest
        | _ => none
      else collectProfileTexts rest
    | _ => none

/-- The keyword cascade of `_generate_investment_profile` over the joined
answer text (defaults overridden by the first matching family, in source
order). -/
def profileFromText (all_text : String) : InvestmentProfile :=
  { investment_horizon :=
      if containsAny all_text horizonLongKws then "Long-term (7+ years)"
      else if containsAny all_text horizonShortKws then "Short-term (1-3 years)"
      else "Medium-term (3-7 years)"
    risk_tolerance :=
      if containsAny all_text profileConservativeKws then "Conservative"
      else if containsAny all_text profileAggressiveKws then "Aggressive"
      else "Moderate"
    preferred_focus :=
      if containsAny all_text focusIncomeKws then "Income Generation"
      else if containsAny all_text focusGrowthKws then "Capital Growth"
      else if containsAny all_text focusResearchKws then "Research-Based"
      else "Balanced Growth" }

/-- `AdaptiveQuizService._generate_investment_profile`
(`all_text = " ".join(response_texts)`). -/
def generateInvestmentProfile (responses : List PyVal) :
    Option InvestmentProfile :=
  (collectProfileTexts responses).map
    (fun ts => profileFromText (String.intercalate " " ts))

/-!
### Spec-side formulas used for refinement comparison
-/

/-- The spec's broker-performance rule taken at its words:
`0.7 * (avg_rating/5) + 0.3 * success_rate`, substituting `0.5` for a
factor only when the column is absent. -/
def specPerformanceScore (broker : Broker) : ℚ :=
  (7/10) * (match broker.average_rating with
    | some r => r / 5
    | none => 1/2) +
  (3/10) * (match broker.success_rate with
    | some s => s
    | none => 1/2)

/-- The amended rule: `0.5` for a factor that is absent **or zero**
(Python truthiness of `0.0`). -/
def amendedPerformanceScore (broker : Broker) : ℚ :=
  (7/10) * (match broker.average_rating with
    | some r => if r = 0 then 1/2 else r / 5
    | none => 1/2) +
  (3/10) * (match broker.success_rate with
    | some s => if s = 0 then 1/2 else s
    | none => 1/2)

/-!
### Concrete witness material
-/

/-- An eligible broker (id `b2`) with no rating data. -/
def brokerB2 : Broker := ⟨"b2", "ub2", .junior, none, none, true, true, none, []⟩

/-- An eligible broker (id `b1`) with no rating data, listed after `b2`. -/
def brokerB1 : Broker := ⟨"b1", "ub1", .junior, none, none, true, true, none, []⟩

/-- The response dict holding one entry that answers none of the scored
questions. -/
def urOne : List (String × RespEntry) := [("hello", ⟨.vnum 1, "text", 1⟩)]

/-- A database with one client (one recorded response that answers none of
the scored questions) and the two identical-scoring brokers `b2`, `b1`
fetched in that order. -/
def dbPair : DB :=
  ⟨[⟨"u1", .client, "c@x.com"⟩, ⟨"ub2", .broker, "b2@x.com"⟩,
    ⟨"ub1", .broker, "b1@x.com"⟩],
   [⟨"u1", "hello", .vnum 1, "text", 1⟩],
   [brokerB2, brokerB1]⟩

/-!
## Helper lemmas
-/

theorem generateQuestionEffects_current_question (s : QuizSession) (t : String) :
    (generateQuestionEffects s t).current_question = s.current_question := by
  unfold generateQuestionEffects
  split <;> rfl

theorem generateQuestionEffects_responses (s : QuizSession) (t : String) :
    (generateQuestionEffects s t).responses = s.responses := by
  unfold generateQuestionEffects
  split <;> rfl

theorem generateQuestionEffects_focus_areas (s : QuizSession) (t : String) :
    (generateQuestionEffects s t).focus_areas = s.focus_areas := by
  unfold generateQuestionEffects
  split <;> rfl

theorem generateQuestionEffects_question_plan (s : QuizSession) (t : String) :
    (generateQuestionEffects s t).question_plan = s.question_plan := by
  unfold generateQuestionEffects
  split <;> rfl

/-!
## Claims
-/

/-- C4: every plan produced by `_create_question_plan` has exactly 10
slots, the slots at positions 9 and 10 (orders 9 and 10) have format
`text`, at most 2 of the 10 slots have format `text`, and every started
session carries exactly this plan. -/
theorem C4_plan_shape :
    (createQuestionPlan.length = 10 ∧
      (createQuestionPlan.getD 8 ⟨0, "", "", ""⟩).order = 9 ∧
      (createQuestionPlan.getD 8 ⟨0, "", "", ""⟩).qtype = "text" ∧
      (createQuestionPlan.getD 9 ⟨0, "", "", ""⟩).order = 10 ∧
      (createQuestionPlan.getD 9 ⟨0, "", "", ""⟩).qtype = "text" ∧
      createQuestionPlan.countP (fun e => e.qtype == "text") ≤ 2) ∧
    ∀ (uid : String) (ut : UserType) (fq : String),
      (startSession uid ut fq).question_plan = createQuestionPlan := by
  refine ⟨by decide, fun uid ut fq => ?_⟩
  unfold startSession
  rw [generateQuestionEffects_question_plan]

/-- C5 as stated is false: the first response "I ask my friends" sets
`decision_style = "social"`, yet after the later response "I always study
the data" (an analytical keyword match) the category reads `"analytical"`
- the earlier match did not win. -/
theorem C5_counterexample :
    (analyzeResponsePatterns [.vstr "I ask my friends"]).decision_style
      = "social" ∧
    (analyzeResponsePatterns
        [.vstr "I ask my friends", .vstr "I always study the data"]).decision_style
      = "analytical" := by
  decide

theorem updateCommunication_decision_style (a : String) (p : ResponsePatterns) :
    (updateCommunication a p).decision_style = p.decision_style := by
  unfold updateCommunication
  split <;> try split
  all_goals rfl

theorem updateCommunication_risk_level (a : String) (p : ResponsePatterns) :
    (updateCommunication a p).risk_level = p.risk_level := by
  unfold updateCommunication
  split <;> try split
  all_goals rfl

theorem updateRiskLevel_decision_style (a : String) (p : ResponsePatterns) :
    (updateRiskLevel a p).decision_style = p.decision_style := by
  unfold updateRiskLevel
  split <;> try split
  all_goals rfl

theorem updatePatterns_decision_social (p : ResponsePatterns) (r : PyVal)
    (h : containsAny (patternAnswerText r) decisionSocialKws = true) :
    (updatePatterns p r).decision_style = "social" := by
  unfold updatePatterns
  rw [updateCommunication_decision_style, updateRiskLevel_decision_style]
  unfold updateDecisionStyle
  simp only [h, if_true]

theorem updatePatterns_risk_conservative (p : ResponsePatterns) (r : PyVal)
    (h : containsAny (patternAnswerText r) riskConservativeKws = true) :
    (updatePatterns p r).risk_level = "conservative" := by
  unfold updatePatterns
  rw [updateCommunication_risk_level]
  unfold updateRiskLevel
  simp only [h, if_true]

theorem updatePatterns_comm_visual (p : ResponsePatterns) (r : PyVal)
    (h : containsAny (patternAnswerText r) commVisualKws = true) :
    (updatePatterns p r).communication = "visual" := by
  unfold updatePatterns updateCommunication
  simp only [h, if_true]

/-- C5 amended: within each category the last matching response wins, not
the first - a keyword match in the final response determines the
category's value regardless of any earlier matches (within one response
the families are still checked in the listed priority order). -/
theorem C5_amended (rs : List PyVal) (r : PyVal) :
    (containsAny (patternAnswerText r) decisionSocialKws = true →
      (analyzeResponsePatterns (rs ++ [r])).decision_style = "social") ∧
    (containsAny (patternAnswerText r) riskConservativeKws = true →
      (analyzeResponsePatterns (rs ++ [r])).risk_level = "conservative") ∧
    (containsAny (patternAnswerText r) commVisualKws = true →
      (analyzeResponsePatterns (rs ++ [r])).communication = "visual") := by
  have hfold : analyzeResponsePatterns (rs ++ [r]) =
      updatePatterns (analyzeResponsePatterns rs) r := by
    unfold analyzeResponsePatterns
    rw [List.foldl_append]
    rfl
  refine ⟨fun h => ?_, fun h => ?_, fun h => ?_⟩
  · rw [hfold]; exact updatePatterns_decision_social _ _ h
  · rw [hfold]; exact updatePatterns_risk_conservative _ _ h
  · rw [hfold]; exact updatePatterns_comm_visual _ _ h

theorem C5_amended_witness :
    (analyzeResponsePatterns
        [.vstr "I always study the data", .vstr "I ask my friends"]).decision_style
      = "social" :=
  (C5_amended [.vstr "I always study the data"] (.vstr "I ask my friends")).1
    (by decide)

/-- C6: on the spec's profile scenario the generator returns
`Long-term (7+ years)` / `Conservative` / `Balanced Growth`, and in
general each field obeys the listed keyword order over the joined
lower-cased answer text: a long-horizon keyword forces `Long-term`, a
conservative keyword forces `Conservative` (whatever else matches), and
with no focus keyword the default `Balanced Growth` stands. -/
theorem C6_profile :
    generateInvestmentProfile
        [.vdict [("response",
            .vdict [("answer", .vstr "I\x27m saving for retirement")])],
         .vdict [("response",
            .vdict [("answer",
              .vstr "I prefer safe, conservative investments")])]]
      = some ⟨"Long-term (7+ years)", "Conservative", "Balanced Growth"⟩ ∧
    (∀ t, containsAny t horizonLongKws = true →
      (profileFromText t).investment_horizon = "Long-term (7+ years)") ∧
    (∀ t, containsAny t profileConservativeKws = true →
      (profileFromText t).risk_tolerance = "Conservative") ∧
    (∀ t, containsAny t focusIncomeKws = false →
      containsAny t focusGrowthKws = false →
      containsAny t focusResearchKws = false →
      (profileFromText t).preferred_focus = "Balanced Growth") := by
  refine ⟨by decide, fun t h => ?_, fun t h => ?_, fun t h1 h2 h3 => ?_⟩
  · unfold profileFromText
    simp only [h, if_true]
  · unfold profileFromText
    simp only [h, if_true]
  · unfold profileFromText
    simp only [h1, h2, h3, Bool.false_eq_true, if_false]

theorem C6_profile_witness :
    (profileFromText "i want a long runway").investment_horizon
      = "Long-term (7+ years)" :=
  (C6_profile.2.1) "i want a long runway" (by decide)

/-- C7 fails as stated: a broker whose `average_rating` is present but
equal to `0.0` is falsy in Python, so the code substitutes `0.5` for the
rating factor and scores `0.62`, while the claimed formula gives `0.27`. -/
theorem C7_counterexample :
    scoreBrokerPerformance
        ⟨"b0", "u0", .senior, some 0, some (9/10), true, true, none, []⟩
      = 31/50 ∧
    specPerformanceScore
        ⟨"b0", "u0", .senior, some 0, some (9/10), true, true, none, []⟩
      = 27/100 ∧
    (31 : ℚ)/50 ≠ 27/100 := by
  refine ⟨?_, ?_, by norm_num⟩
  · unfold scoreBrokerPerformance
    norm_num
  · unfold specPerformanceScore
    norm_num

/-- C7 amended: the performance criterion equals
`0.7 * (average_rating/5) + 0.3 * success_rate` with `0.5` substituted for
each factor that is absent **or zero** (Python truthiness); in particular
a broker with `average_rating = 4.5` and `success_rate = 0.9` scores
exactly `0.90`. -/
theorem C7_amended :
    (∀ b : Broker, scoreBrokerPerformance b = amendedPerformanceScore b) ∧
    scoreBrokerPerformance
        ⟨"b1", "u1", .senior, some (9/2), some (9/10), true, true, none, []⟩
      = 9/10 := by
  constructor
  · intro b
    rcases b with ⟨bid, buid, bel, ar, sr, bv, ba, bd, bsp⟩
    unfold scoreBrokerPerformance amendedPerformanceScore
    rcases ar with _ | r <;> rcases sr with _ | s <;> dsimp only <;>
      (try split) <;> (try split) <;> ring
  · unfold scoreBrokerPerformance
    norm_num

/-- C8 fails as stated: submitting the answer "I need help with tax and
retirement" (which contains both "tax" and "retirement") adds only
`retirement_planning` - the `elif` chain never reaches the "tax" branch,
so `tax_optimization` is missing from the session's focus areas. -/
theorem C8_counterexample :
    (submitResponse (startSession "u1" UserType.client "Q1")
        (.vstr "I need help with tax and retirement") [] "Q2").session.focus_areas
      = ["investment_goals", "risk_assessment", "psychology_analysis",
         "broker_preferences", "service_needs", "retirement_planning"] ∧
    "tax_optimization" ∉
      (submitResponse (startSession "u1" UserType.client "Q1")
        (.vstr "I need help with tax and retirement") [] "Q2").session.focus_areas := by
  decide

/-- C8 amended: a submit call updates the focus areas through
`_update_focus_areas`, which adds **at most one** area per call, chosen by
the keyword priority retirement > tax > estate: "retirement" in the answer
adds `retirement_planning`; "tax" adds `tax_optimization` only when
"retirement" is absent; "estate" adds `estate_planning` only when both are
absent.  The update is idempotent - it never introduces a duplicate. -/
theorem C8_amended (areas : List String) (ans : String) :
    (strContains (pyLower ans) "retirement" = true →
      "retirement_planning" ∈ updateFocusAreas areas (.vstr ans)) ∧
    (strContains (pyLower ans) "retirement" = false →
      strContains (pyLower ans) "tax" = true →
      "tax_optimization" ∈ updateFocusAreas areas (.vstr ans)) ∧
    (strContains (pyLower ans) "retirement" = false →
      strContains (pyLower ans) "tax" = false →
      strContains (pyLower ans) "estate" = true →
      "estate_planning" ∈ updateFocusAreas areas (.vstr ans)) ∧
    (areas.Nodup → (updateFocusAreas areas (.vstr ans)).Nodup) ∧
    (∀ (s : QuizSession) (a : PyVal) (ins : List String) (nq : String),
      (submitResponse s a ins nq).session.focus_areas =
        updateFocusAreas s.focus_areas a) := by
  refine ⟨fun h => ?_, fun h1 h2 => ?_, fun h1 h2 h3 => ?_, fun hnd => ?_,
    fun s a ins nq => ?_⟩
  · unfold updateFocusAreas
    simp only [h, if_true]
    split
    · exact List.mem_append_right _ (by simp)
    · next hc =>
        simp only [Bool.not_eq_true', Bool.not_eq_false] at hc
        exact List.mem_of_elem_eq_true hc
  · unfold updateFocusAreas
    simp only [h1, h2, Bool.false_eq_true, if_false, if_true]
    split
    · exact List.mem_append_right _ (by simp)
    · next hc =>
        simp only [Bool.not_eq_true', Bool.not_eq_false] at hc
        exact List.mem_of_elem_eq_true hc
  · unfold updateFocusAreas
    simp only [h1, h2, h3, Bool.false_eq_true, if_false, if_true]
    split
    · exact List.mem_append_right _ (by simp)
    · next hc =>
        simp only [Bool.not_eq_true', Bool.not_eq_false] at hc
        exact List.mem_of_elem_eq_true hc
  · have hstep : ∀ (x : String),
        (if !areas.contains x then areas ++ [x] else areas).Nodup := by
      intro x
      split
      · next hc =>
          simp only [Bool.not_eq_true'] at hc
          refine List.Nodup.append hnd (List.nodup_singleton x) ?_
          intro b hb hb'
          rw [List.mem_singleton] at hb'
          subst hb'
          exact absurd (List.elem_eq_true_of_mem hb) (by simp [List.contains] at hc; simp [hc])
      · exact hnd
    simp only [updateFocusAreas]
    split
    · exact hstep _
    · split
      · exact hstep _
      · split
        · exact hstep _
        · exact hnd
  · unfold submitResponse
    split
    · rfl
    · simp only [SubmitResult.session, generateQuestionEffects_focus_areas]
      rfl

theorem C8_amended_witness :
    "tax_optimization" ∈ updateFocusAreas [] (.vstr "my tax situation") :=
  (C8_amended [] "my tax situation").2.1 (by decide) (by decide)

/-- C9: a user with zero recorded quiz responses gets `some []` from
`calculate_matches` - the empty match list, not an exception. -/
theorem C9_no_responses (decode : String → Option PyVal) (db : DB)
    (uid : String) (top_n : ℕ)
    (h : db.quiz_responses.filter (fun r => r.user_id == uid) = []) :
    calculate_matches decode db uid top_n = some [] := by
  unfold calculate_matches
  split
  · rfl
  · have hur : getUserResponses decode db uid = [] := by
      unfold getUserResponses
      rw [h]
      exact List.foldl_nil
    rw [hur]
    rfl

theorem C9_witness :
    calculate_matches (fun _ => none)
      ⟨[⟨"u1", UserType.client, "c@x.com"⟩], [], []⟩ "u1" 10 = some [] :=
  C9_no_responses (fun _ => none) _ "u1" 10 rfl

/-- C10: when no `CLIENT`-typed user carries the requested id (nonexistent
user, or a broker/admin account), `calculate_matches` returns `some []`
rather than raising. -/
theorem C10_no_client_user (decode : String → Option PyVal) (db : DB)
    (uid : String) (top_n : ℕ)
    (h : db.users.find?
      (fun u => u.id == uid && u.user_type == UserType.client) = none) :
    calculate_matches decode db uid top_n = some [] := by
  unfold calculate_matches
  rw [h]

theorem C10_witness :
    calculate_matches (fun _ => none)
      ⟨[⟨"u2", UserType.broker, "b@x.com"⟩], [], []⟩ "u2" 5 = some [] :=
  C10_no_client_user (fun _ => none) _ "u2" 5 (by decide)

/-!
## State-machine lemmas for C3
-/

theorem submitResponse_completed_inv (s : QuizSession) (answer : PyVal)
    (ins : List String) (nq : String) (payload : QuizSession)
    (h : submitResponse s answer ins nq = .completed payload) :
    total_questions ≤ s.current_question ∧
    payload.responses.length = s.responses.length + 1 := by
  unfold submitResponse at h
  split at h
  · next hc =>
      refine ⟨hc, ?_⟩
      cases h
      simp [appendResponse]
  · exact absurd h (by intro hh; exact SubmitResult.noConfusion hh)

theorem submitResponse_next_inv (s : QuizSession) (answer : PyVal)
    (ins : List String) (nq : String) (s' : QuizSession) (p : ℚ)
    (h : submitResponse s answer ins nq = .next s' p) :
    ¬ total_questions ≤ s.current_question ∧
    s'.current_question = s.current_question + 1 ∧
    s'.responses.length = s.responses.length + 1 := by
  unfold submitResponse at h
  split at h
  · exact absurd h (by intro hh; exact SubmitResult.noConfusion hh)
  · next hc =>
      refine ⟨hc, ?_, ?_⟩
      · cases h
        rw [generateQuestionEffects_current_question]
      · cases h
        rw [generateQuestionEffects_responses]
        simp [appendResponse]

theorem submitResponse_completes (s : QuizSession) (answer : PyVal)
    (ins : List String) (nq : String)
    (hc : total_questions ≤ s.current_question) :
    ∃ payload, submitResponse s answer ins nq = .completed payload := by
  unfold submitResponse
  rw [if_pos hc]
  exact ⟨_, rfl⟩

/-- Sessions reachable through the start/submit lifecycle keep the slot
index one past the number of stored responses and never above 10. -/
theorem reachable_invariant (s : QuizSession) (h : Reachable s) :
    s.current_question = s.responses.length + 1 ∧
    s.current_question ≤ total_questions := by
  induction h with
  | start uid ut fq =>
      constructor
      · unfold startSession
        rw [generateQuestionEffects_current_question,
          generateQuestionEffects_responses]
        rfl
      · unfold startSession
        rw [generateQuestionEffects_current_question]
        show (1 : ℕ) ≤ total_questions
        decide
  | step hr hsub ih =>
      next s₀ s₁ answer ins nq p =>
        obtain ⟨hc, hcq, hlen⟩ :=
          submitResponse_next_inv s₀ answer ins nq s₁ p hsub
        unfold total_questions at hc ih ⊢
        omega

/-- C3: along the state machine's lifecycle (`start_adaptive_quiz`
followed by `submit_response_and_get_next` calls) the current slot index
stays in `[1, 10]` while the session is in progress, and a submit call
returns the `Completed` payload exactly when the payload holds 10 response
records - equivalently, when the session already stored 9. -/
theorem C3_slot_range_and_completion (s : QuizSession) (h : Reachable s) :
    (1 ≤ s.current_question ∧ s.current_question ≤ 10) ∧
    ∀ (answer : PyVal) (ins : List String) (nq : String),
      ((∃ payload, submitResponse s answer ins nq = .completed payload) ↔
        s.responses.length + 1 = 10) ∧
      (∀ payload, submitResponse s answer ins nq = .completed payload →
        payload.responses.length = 10) := by
  obtain ⟨hinv, hle⟩ := reachable_invariant s h
  unfold total_questions at hle
  refine ⟨⟨by omega, hle⟩, fun answer ins nq => ⟨⟨?_, ?_⟩, ?_⟩⟩
  · rintro ⟨payload, hp⟩
    obtain ⟨hc, -⟩ := submitResponse_completed_inv s answer ins nq payload hp
    unfold total_questions at hc
    omega
  · intro hlen
    exact submitResponse_completes s answer ins nq (by unfold total_questions; omega)
  · intro payload hp
    obtain ⟨hc, hplen⟩ := submitResponse_completed_inv s answer ins nq payload hp
    unfold total_questions at hc
    omega

theorem C3_witness :
    1 ≤ (startSession "u1" UserType.client "Q1").current_question ∧
    (startSession "u1" UserType.client "Q1").current_question ≤ 10 :=
  (C3_slot_range_and_completion (startSession "u1" UserType.client "Q1")
    (Reachable.start "u1" UserType.client "Q1")).1

/-!
## Criterion-score bounds for C1
-/

theorem scoreInvestmentGoals_bounds (b : Broker)
    (ur : List (String × RespEntry)) :
    0 ≤ scoreInvestmentGoals b ur ∧ scoreInvestmentGoals b ur ≤ 1 := by
  simp only [scoreInvestmentGoals]
  split
  · norm_num
  · split
    · norm_num
    · split
      · norm_num
      · split
        · norm_num
        · exact ⟨le_min (by positivity) (by norm_num), min_le_right _ _⟩

theorem scoreRiskTolerance_bounds (b : Broker)
    (ur : List (String × RespEntry)) :
    0 ≤ scoreRiskTolerance b ur ∧ scoreRiskTolerance b ur ≤ 1 := by
  simp only [scoreRiskTolerance]
  split
  · norm_num
  · split
    · norm_num
    · split
      · norm_num
      · split <;> norm_num

theorem scoreExperienceMatch_bounds (b : Broker)
    (ur : List (String × RespEntry)) :
    0 ≤ scoreExperienceMatch b ur ∧ scoreExperienceMatch b ur ≤ 1 := by
  simp only [scoreExperienceMatch]
  split
  · norm_num
  · split
    · norm_num
    · split
      · norm_num
      · split
        · split
          · norm_num
          · split <;> norm_num
        · norm_num

theorem scoreServiceAlignment_bounds (decode : String → Option PyVal)
    (b : Broker) (ur : List (String × RespEntry)) (q : ℚ)
    (h : scoreServiceAlignment decode b ur = some q) :
    0 ≤ q ∧ q ≤ 1 := by
  simp only [scoreServiceAlignment] at h
  split at h
  · cases h; norm_num
  · split at h
    · cases h; norm_num
    · split at h
      · exact absurd h (by simp)
      · next items heq =>
          split at h
          · cases h; norm_num
          · next hne =>
              cases h
              have hlen : 0 < items.length := by
                have hnil : items ≠ [] := by simpa using hne
                exact List.length_pos.mpr hnil
              constructor
              · positivity
              · rw [div_le_one (by exact_mod_cast hlen)]
                exact_mod_cast List.countP_le_length _

theorem scoreInvestmentAmount_bounds (b : Broker)
    (ur : List (String × RespEntry)) :
    0 ≤ scoreInvestmentAmount b ur ∧ scoreInvestmentAmount b ur ≤ 1 := by
  simp only [scoreInvestmentAmount]
  split
  · norm_num
  · split
    · norm_num
    · split
      · norm_num
      · split
        · norm_num
        · split <;> norm_num

theorem scoreSectorInterests_bounds (decode : String → Option PyVal)
    (b : Broker) (ur : List (String × RespEntry)) (q : ℚ)
    (h : scoreSectorInterests decode b ur = some q) :
    0 ≤ q ∧ q ≤ 1 := by
  simp only [scoreSectorInterests] at h
  split at h
  · cases h; norm_num
  · split at h
    · cases h; norm_num
    · split at h
      · exact absurd h (by simp)
      · split at h
        · cases h; norm_num
        · cases h
          exact ⟨le_min (by positivity) (by norm_num), min_le_right _ _⟩

theorem scoreCommunicationStyle_bounds (b : Broker)
    (ur : List (String × RespEntry)) :
    0 ≤ scoreCommunicationStyle b ur ∧ scoreCommunicationStyle b ur ≤ 1 := by
  simp only [scoreCommunicationStyle]
  split <;> norm_num

theorem scoreCertificationMatch_bounds (decode : String → Option PyVal)
    (b : Broker) (ur : List (String × RespEntry)) (q : ℚ)
    (h : scoreCertificationMatch decode b ur = some q) :
    0 ≤ q ∧ q ≤ 1 := by
  simp only [scoreCertificationMatch] at h
  split at h
  · cases h; norm_num
  · split at h
    · cases h; norm_num
    · split at h
      · exact absurd h (by simp)
      · split at h <;> cases h <;> norm_num

theorem scoreBrokerPerformance_bounds (b : Broker)
    (hr : ∀ r, b.average_rating = some r → 0 ≤ r ∧ r ≤ 5)
    (hs : ∀ s, b.success_rate = some s → 0 ≤ s ∧ s ≤ 1) :
    0 ≤ scoreBrokerPerformance b ∧ scoreBrokerPerformance b ≤ 1 := by
  obtain ⟨bid, buid, bel, ar, sr, bv, ba, bd, bsp⟩ := b
  rcases ar with _ | r <;> rcases sr with _ | s <;>
    simp only [scoreBrokerPerformance]
  · norm_num
  · obtain ⟨hs0, hs1⟩ := hs s rfl
    split_ifs <;> constructor <;> linarith
  · obtain ⟨hr0, hr1⟩ := hr r rfl
    split_ifs <;> constructor <;> linarith
  · obtain ⟨hr0, hr1⟩ := hr r rfl
    obtain ⟨hs0, hs1⟩ := hs s rfl
    split_ifs <;> constructor <;> linarith

/-- C1: whenever `_calculate_broker_score` computes a value (no scorer
raised), that value - the weighted sum of the nine criterion scores,
capped at 1.0 - lies in `[0, 1]`, for every broker with a valid rating
(`average_rating ∈ [0,5]`, `success_rate ∈ [0,1]` when present) and every
response dict. -/
theorem C1_score_in_unit_interval (decode : String → Option PyVal)
    (broker : Broker) (user_responses : List (String × RespEntry)) (q : ℚ)
    (hr : ∀ r, broker.average_rating = some r → 0 ≤ r ∧ r ≤ 5)
    (hs : ∀ s, broker.success_rate = some s → 0 ≤ s ∧ s ≤ 1)
    (h : calculateBrokerScore decode broker user_responses = some q) :
    0 ≤ q ∧ q ≤ 1 := by
  simp only [calculateBrokerScore] at h
  obtain ⟨sv, hsv, h⟩ := Option.bind_eq_some.mp h
  obtain ⟨sec, hsec, h⟩ := Option.bind_eq_some.mp h
  obtain ⟨ct, hct, h⟩ := Option.bind_eq_some.mp h
  rw [show ∀ x : ℚ, (pure x : Option ℚ) = some x from fun _ => rfl,
    Option.some_inj] at h
  subst h
  obtain ⟨g0, g1⟩ := scoreInvestmentGoals_bounds broker user_responses
  obtain ⟨r0, r1⟩ := scoreRiskTolerance_bounds broker user_responses
  obtain ⟨e0, e1⟩ := scoreExperienceMatch_bounds broker user_responses
  obtain ⟨v0, v1⟩ :=
    scoreServiceAlignment_bounds decode broker user_responses sv hsv
  obtain ⟨a0, a1⟩ := scoreInvestmentAmount_bounds broker user_responses
  obtain ⟨c0, c1⟩ :=
    scoreSectorInterests_bounds decode broker user_responses sec hsec
  obtain ⟨m0, m1⟩ :=
    scoreCommunicationStyle_bounds broker user_responses
  obtain ⟨t0, t1⟩ :=
    scoreCertificationMatch_bounds decode broker user_responses ct hct
  obtain ⟨p0, p1⟩ := scoreBrokerPerformance_bounds broker hr hs
  constructor
  · exact le_min (by nlinarith) (by norm_num)
  · exact min_le_right _ _

/-!
## Concrete evaluation of the scoring pipeline
-/

/-- A broker with no rating data, scored against a response dict that
answers none of the seven scored questions, gets the all-defaults weighted
score `0.53`. -/
theorem calcScoreUrOne (decode : String → Option PyVal) (b : Broker)
    (har : b.average_rating = none) (hsr : b.success_rate = none) :
    calculateBrokerScore decode b urOne = some (53/100) := by
  have hgoals : scoreInvestmentGoals b urOne = 1/2 := rfl
  have hrisk : scoreRiskTolerance b urOne = 1/2 := rfl
  have hexp : scoreExperienceMatch b urOne = 1/2 := rfl
  have hamount : scoreInvestmentAmount b urOne = 1/2 := rfl
  have hcomm : scoreCommunicationStyle b urOne = 4/5 := rfl
  have hperf : scoreBrokerPerformance b = 1/2 := by
    simp only [scoreBrokerPerformance, har, hsr]
    norm_num
  have hbody : calculateBrokerScore decode b urOne =
      some (min (scoreInvestmentGoals b urOne * (20/100) +
        scoreRiskTolerance b urOne * (15/100) +
        scoreExperienceMatch b urOne * (15/100) +
        (1/2 : ℚ) * (15/100) +
        scoreInvestmentAmount b urOne * (10/100) +
        (1/2 : ℚ) * (10/100) +
        scoreCommunicationStyle b urOne * (5/100) +
        (4/5 : ℚ) * (5/100) +
        scoreBrokerPerformance b * (5/100)) 1) := rfl
  rw [hbody, hgoals, hrisk, hexp, hamount, hcomm, hperf, Option.some_inj]
  norm_num [min_def]

theorem scoredPair (decode : String → Option PyVal) :
    scoredBrokers decode dbPair urOne =
      some [(brokerB2, 53/100), (brokerB1, 53/100)] := by
  have h2 := calcScoreUrOne decode brokerB2 rfl rfl
  have h1 := calcScoreUrOne decode brokerB1 rfl rfl
  unfold scoredBrokers
  rw [show eligibleBrokers dbPair = [brokerB2, brokerB1] from by decide]
  simp [scoreLoop, h2, h1]

theorem calcMatchesPair (decode : String → Option PyVal) :
    calculate_matches decode dbPair "u1" 10 =
      some [(brokerB2, 53/100), (brokerB1, 53/100)] := by
  have hfind : dbPair.users.find?
      (fun u => u.id == "u1" && u.user_type == UserType.client) =
      some ⟨"u1", UserType.client, "c@x.com"⟩ := rfl
  have hur : getUserResponses decode dbPair "u1" = urOne := rfl
  simp only [calculate_matches, hfind, hur]
  rw [if_neg (by decide : ¬ (urOne.isEmpty = true))]
  rw [scoredPair decode]
  have hpw : List.Pairwise
      (fun a b : Broker × ℚ => decide (b.2 ≤ a.2) = true)
      [(brokerB2, 53/100), (brokerB1, 53/100)] := by
    refine List.Pairwise.cons (fun y hy => ?_) (List.pairwise_singleton _ _)
    rw [List.mem_singleton] at hy
    subst hy
    exact decide_eq_true le_rfl
  have hsorted : pySortByScoreDesc [(brokerB2, 53/100), (brokerB1, 53/100)] =
      [(brokerB2, 53/100), (brokerB1, 53/100)] := by
    unfold pySortByScoreDesc
    exact List.mergeSort_of_sorted hpw
  rw [Option.map_eq_some']
  exact ⟨_, rfl, by rw [hsorted]; rfl⟩

/-- C2 fails as stated: in `dbPair` both brokers score `0.53`, the list
returned keeps the database order `b2` before `b1`, yet id `b1` precedes
`b2` lexicographically - equal-score entries are not in ascending
broker-id order. -/
theorem C2_counterexample :
    calculate_matches (fun _ => none) dbPair "u1" 10 =
      some [(brokerB2, 53/100), (brokerB1, 53/100)] ∧
    brokerB2.id = "b2" ∧ brokerB1.id = "b1" ∧
    ("b1" : String).data < ("b2" : String).data :=
  ⟨calcMatchesPair (fun _ => none), rfl, rfl, by decide⟩

/-- C2 amended: every list returned by `calculate_matches` is sorted in
descending order of match score; entries with equal scores keep the
relative order in which the brokers were fetched from the database
(Python's sort is stable) - they are **not** reordered by broker id.
Stability is stated on the scored list: any two scored entries in
database order whose scores are already descending (in particular any
tie) stay in that order after the sort. -/
theorem C2_sorted_desc_and_stable (decode : String → Option PyVal) (db : DB)
    (uid : String) (top_n : ℕ) (result : List (Broker × ℚ))
    (h : calculate_matches decode db uid top_n = some result) :
    result.Pairwise (fun x y => y.2 ≤ x.2) ∧
    ∀ (bs : List (Broker × ℚ)) (a b : Broker × ℚ),
      scoredBrokers decode db (getUserResponses decode db uid) = some bs →
      List.Sublist [a, b] bs → b.2 ≤ a.2 →
      List.Sublist [a, b] (pySortByScoreDesc bs) := by
  have hle_trans : ∀ (a b c : Broker × ℚ),
      (fun x y : Broker × ℚ => decide (y.2 ≤ x.2)) a b = true →
      (fun x y : Broker × ℚ => decide (y.2 ≤ x.2)) b c = true →
      (fun x y : Broker × ℚ => decide (y.2 ≤ x.2)) a c = true := by
    intro a b c hab hbc
    simp only [decide_eq_true_eq] at *
    exact le_trans hbc hab
  have hle_total : ∀ (a b : Broker × ℚ),
      ((fun x y : Broker × ℚ => decide (y.2 ≤ x.2)) a b ||
        (fun x y : Broker × ℚ => decide (y.2 ≤ x.2)) b a) = true := by
    intro a b
    simp only [Bool.or_eq_true, decide_eq_true_eq]
    exact le_total b.2 a.2
  constructor
  · simp only [calculate_matches] at h
    split at h
    · cases h
      exact List.Pairwise.nil
    · split at h
      · cases h
        exact List.Pairwise.nil
      · obtain ⟨bs, hbs, hres⟩ := Option.map_eq_some'.mp h
        subst hres
        have hsorted :=
          List.sorted_mergeSort hle_trans hle_total bs
        exact (List.Pairwise.sublist (List.take_sublist _ _) hsorted).imp
          (fun hab => of_decide_eq_true hab)
  · intro bs a b _ hsub hle
    exact List.pair_sublist_mergeSort hle_trans hle_total
      (by simpa using hle) hsub

theorem C2_witness :
    ([(brokerB2, (53 : ℚ)/100), (brokerB1, 53/100)]).Pairwise
      (fun x y : Broker × ℚ => y.2 ≤ x.2) :=
  (C2_sorted_desc_and_stable (fun _ => none) dbPair "u1" 10 _
    (calcMatchesPair (fun _ => none))).1

theorem C1_witness :
    (0 : ℚ) ≤ 53/100 ∧ (53 : ℚ)/100 ≤ 1 :=
  C1_score_in_unit_interval (fun _ => none) brokerB2 urOne (53/100)
    (fun r hr => by simp [brokerB2] at hr)
    (fun s hs => by simp [brokerB2] at hs)
    (calcScoreUrOne (fun _ => none) brokerB2 rfl rfl)

end MyMoneyMedic
